import Mathlib

/-!
Shallow embedding of `src/python/dftd3/ase.py`, the ASE adapter of the
simple-dftd3 library.

Modelling conventions: Python floats are rationals, numpy arrays are lists
of rationals, the module-level `_damping_param` dict is a partial lookup
function, keyword dicts are association lists, and the external native
engine (the `dftd3.interface` module together with the ASE `ase.units`
constants it is fed) is an oracle record `Engine` fixing the outcome of
every foreign call.  Python exceptions are modelled with `Except`; a raised
error escaping `calculate` carries the exception kind together with the
object state at the moment of the raise, because mutations performed before
the raise persist in Python.
-/

namespace SDFTD3Ase

/-- Python exception kinds observable from this module: the builtins
KeyError, AttributeError, TypeError and RuntimeError, plus the two ASE
calculator errors (`InputError`, `CalculationFailed`) the adapter raises
itself. -/
inductive PyErr
  | keyError
  | attributeError
  | typeError
  | runtimeError
  | inputError
  | calculationFailed
  deriving DecidableEq

/-- Constant `ase.units.Hartree` (eV per Hartree).  The exact numeric value plays no
role in any claim; only the fact that the same constant appears on both
sides of each conversion matters. -/
def Hartree : ℚ := 27.211386245988

/-- Constant `ase.units.Bohr` (Angstrom per Bohr). -/
def Bohr : ℚ := 0.5291772105638411

/-- Elementwise map over a numpy-style row-major matrix, as produced by
numpy broadcasting of `*` and `/` with a scalar. -/
def mapMat (f : ℚ → ℚ) (m : List (List ℚ)) : List (List ℚ) :=
  m.map (fun row => row.map f)

/-- Values storable in a Python keyword-argument dict: `None`, a string, or
a number. -/
inductive Value
  | vnone
  | vstr (s : String)
  | vnum (q : ℚ)
  deriving DecidableEq

/-- Coercion used for `{"method": self.parameters.get("method")}`. -/
def Value.ofOptStr : Option String → Value
  | none => .vnone
  | some s => .vstr s

/-- A Python keyword dict, as an association list. -/
abbrev Kwargs := List (String × Value)

/-- The damping-parameter classes exported by `dftd3.interface` and
referenced by the module-level `_damping_param` dict. -/
inductive DampingClass
  | rational
  | zero
  | modifiedRational
  | modifiedZero
  | optimizedPower
  deriving DecidableEq

/-- A constructed damping-parameter object, recording which class was
instantiated and the keyword arguments its constructor received. -/
structure DampingParam where
  cls : DampingClass
  kwargs : Kwargs
  deriving DecidableEq

/-- The ASE `Atoms` data consumed by the adapter: atomic numbers, positions
(n x 3, framework length unit), cell (3 x 3, row-major), periodicity
flags. -/
structure Atoms where
  numbers : List Nat
  positions : List (List ℚ)
  cell : List (List ℚ)
  pbc : List Bool
  deriving DecidableEq

/-- A native `DispersionModel` handle.  The `id` field models Python object
identity: the in-place `update` keeps it, reconstruction allocates a fresh
one (drawn from the `nextId` counter of the calculator state). -/
structure Model where
  id : Nat
  numbers : List Nat
  positions : List (List ℚ)
  cell : List (List ℚ)
  periodic : List Bool
  deriving DecidableEq

/-- The in-place geometry refresh `DispersionModel.update(positions, cell)`:
same object (same `id`), new geometry. -/
def Model.update (m : Model) (positions cell : List (List ℚ)) : Model :=
  { m with positions := positions, cell := cell }

/-- The result dict of `get_dispersion`; the module relies on the keys
`energy`, `gradient` and `virial` being present (atomic units). -/
structure DispRes where
  energy : ℚ
  gradient : List (List ℚ)
  virial : List (List ℚ)

/-- Oracle for the external native engine: which foreign calls raise, and
what a successful dispersion evaluation returns.  `dampingCtorFails`
returns the exception kind raised by the family constructor (`none` for
success); the engine proper signals failure with RuntimeError. -/
structure Engine where
  constructFails : List Nat → List (List ℚ) → List (List ℚ) → List Bool → Bool
  updateFails : Model → List (List ℚ) → List (List ℚ) → Bool
  dampingCtorFails : DampingClass → Kwargs → Option PyErr
  dispersionFails : Model → DampingParam → Bool
  dispersion : Model → DampingParam → DispRes

/-- The calculator parameters with their `default_parameters` values. -/
structure Parameters where
  method : Option String := none
  damping : Option String := none
  params_tweaks : Kwargs := []
  cache_api : Bool := true
  deriving DecidableEq

/-- The `self.results` dict.  A `none` field means the key is absent. -/
structure Results where
  energy : Option ℚ := none
  free_energy : Option ℚ := none
  forces : Option (List (List ℚ)) := none
  stress : Option (List ℚ) := none
  deriving DecidableEq

/-- The mutable state of a `DFTD3` calculator instance: parameters, the
attached atoms (`none` models Python `None`), the cached native model
handle `_disp`, the results dict, and a freshness counter for model
identities. -/
structure State where
  parameters : Parameters
  atoms : Option Atoms := none
  _disp : Option Model := none
  results : Results := {}
  nextId : Nat := 0
  deriving DecidableEq

/-- The module-level `_damping_param` dict (lines 111-119), keyed by the
value of `parameters.get("damping")` (possibly `None`).  A `none` result
corresponds to a KeyError on subscription. -/
def _damping_param : Option String → Option DampingClass
  | some "d3bj" => some .rational
  | some "d3zero" => some .zero
  | some "d3bjm" => some .modifiedRational
  | some "d3mbj" => some .modifiedRational
  | some "d3zerom" => some .modifiedZero
  | some "d3mzero" => some .modifiedZero
  | some "d3op" => some .optimizedPower
  | _ => none

/-- Line 247: the keyword dict handed to the damping constructor —
`params_tweaks` when truthy (non-empty), else the singleton dict
`{"method": parameters.get("method")}`. -/
def dampingKwargs (p : Parameters) : Kwargs :=
  if p.params_tweaks ≠ [] then p.params_tweaks
  else [("method", Value.ofOptStr p.method)]

/-- Method `_create_damping_param` (lines 243-253).  The `except RuntimeError`
clause converts only RuntimeError into InputError; a failed dict lookup
raises KeyError, which is not a RuntimeError subclass and escapes, and any
other constructor exception escapes likewise. -/
def _create_damping_param (eng : Engine) (p : Parameters) : Except PyErr DampingParam :=
  match _damping_param p.damping with
  | none => .error .keyError
  | some cls =>
    match eng.dampingCtorFails cls (dampingKwargs p) with
    | some PyErr.runtimeError => .error .inputError
    | some e => .error e
    | none => .ok { cls := cls, kwargs := dampingKwargs p }

/-- The ASE base `Calculator.reset`: detaches the atoms reference and
clears the results dict. -/
def baseReset (s : State) : State :=
  { s with atoms := none, results := {} }

/-- Method `DFTD3.reset` (lines 191-196): base reset, then drop the cached model
handle when `cache_api` is disabled. -/
def reset (s : State) : State :=
  let s1 := baseReset s
  if s1.parameters.cache_api then s1 else { s1 with _disp := none }

/-- Keyword arguments accepted by `set`; an outer `none` marks a keyword
that was not supplied. -/
structure SetKwargs where
  method : Option (Option String) := none
  damping : Option (Option String) := none
  params_tweaks : Option Kwargs := none
  cache_api : Option Bool := none

/-- One keyword of the ASE base `Calculator.set`: the new stored value and
whether it differed from the old one. -/
def applyField {α : Type} [DecidableEq α] (new : Option α) (old : α) : α × Bool :=
  match new with
  | none => (old, false)
  | some v => if v = old then (old, false) else (v, true)

/-- The ASE base `Calculator.set`: updates the parameter record and reports
whether any supplied keyword changed its parameter. -/
def baseSet (kw : SetKwargs) (p : Parameters) : Parameters × Bool :=
  let m := applyField kw.method p.method
  let d := applyField kw.damping p.damping
  let t := applyField kw.params_tweaks p.params_tweaks
  let c := applyField kw.cache_api p.cache_api
  ({ method := m.1, damping := d.1, params_tweaks := t.1, cache_api := c.1 },
   m.2 || d.2 || t.2 || c.2)

/-- Method `DFTD3.set` (lines 180-189): store the new parameters, then reset
whenever any parameter changed. -/
def set (kw : SetKwargs) (s : State) : State :=
  let pc := baseSet kw s.parameters
  let s1 := { s with parameters := pc.1 }
  if pc.2 then reset s1 else s1

/-- Positions converted to the engine's length unit
(`self.atoms.positions / Bohr`). -/
def positionsBohr (a : Atoms) : List (List ℚ) :=
  mapMat (fun x => x / Bohr) a.positions

/-- Cell converted to the engine's length unit (`_cell / Bohr`). -/
def cellBohr (a : Atoms) : List (List ℚ) :=
  mapMat (fun x => x / Bohr) a.cell

/-- Lines 202-206: copy the change list and apply `list.remove`, which
drops only the first occurrence of `"positions"` and of `"cell"` (each
guarded by a membership test). -/
def residual (system_changes : List String) : List String :=
  let r1 := if "positions" ∈ system_changes then system_changes.erase "positions"
            else system_changes
  if "cell" ∈ r1 then r1.erase "cell" else r1

/-- Method `_check_api_calculator` (lines 198-222).  The try block catches only
RuntimeError from the in-place update; reading `.cell` on a detached
(`None`) atoms object raises AttributeError, which would escape. -/
def _check_api_calculator (eng : Engine) (system_changes : List String) (s : State) :
    Except PyErr State :=
  if residual system_changes ≠ [] then .ok { s with _disp := none }
  else if system_changes ≠ [] then
    match s._disp with
    | none => .ok s
    | some m =>
      match s.atoms with
      | none => .error .attributeError
      | some a =>
        if eng.updateFails m (positionsBohr a) (cellBohr a) then
          .ok { s with _disp := none }
        else
          .ok { s with _disp := some (m.update (positionsBohr a) (cellBohr a)) }
  else .ok s

/-- Method `_create_api_calculator` (lines 224-241): build a fresh
`DispersionModel` from the current atoms; RuntimeError from the engine is
converted into InputError. -/
def _create_api_calculator (eng : Engine) (a : Atoms) (freshId : Nat) :
    Except PyErr Model :=
  if eng.constructFails a.numbers (positionsBohr a) (cellBohr a) a.pbc then
    .error .inputError
  else
    .ok { id := freshId, numbers := a.numbers, positions := positionsBohr a,
          cell := cellBohr a, periodic := a.pbc }

/-- Determinant of a 3 x 3 row-major matrix. -/
def det3 (m : List (List ℚ)) : ℚ :=
  let g := fun i j => (m.getD i []).getD j 0
  g 0 0 * (g 1 1 * g 2 2 - g 1 2 * g 2 1)
    - g 0 1 * (g 1 0 * g 2 2 - g 1 2 * g 2 0)
    + g 0 2 * (g 1 0 * g 2 1 - g 1 1 * g 2 0)

/-- Framework `Atoms.get_volume()`: absolute value of the cell determinant. -/
def getVolume (a : Atoms) : ℚ := |det3 a.cell|

/-- Numpy `.flat[[0, 4, 8, 5, 2, 1]]` on a row-major 3 x 3 matrix: the
Voigt reordering applied on line 286. -/
def voigtFlat (m : List (List ℚ)) : List ℚ :=
  [0, 4, 8, 5, 2, 1].map (fun i => m.flatten.getD i 0)

/-- Lines 272-286 of `calculate`: build the damping parameter, call
`get_dispersion` (RuntimeError becomes CalculationFailed), then write the
results dict.  `m` is the model handle `self._disp` holds at this point;
the state is threaded explicitly and an error carries the state at the
moment of the raise. -/
def calcWithModel (eng : Engine) (atoms : Atoms) (s : State) (m : Model) :
    Except (PyErr × State) State :=
  match _create_damping_param eng s.parameters with
  | .error e => .error (e, s)
  | .ok dpar =>
    if eng.dispersionFails m dpar then
      .error (PyErr.calculationFailed, s)
    else
      let res := eng.dispersion m dpar
      let withEF : Results :=
        { s.results with
          energy := some (res.energy * Hartree),
          free_energy := some (res.energy * Hartree),
          forces := some (mapMat (fun g => -g * Hartree / Bohr) res.gradient) }
      if atoms.pbc.any (fun b => b) then
        let _stress := mapMat (fun x => x * Hartree / getVolume atoms) res.virial
        .ok { s with results := { withEF with stress := some (voigtFlat _stress) } }
      else
        .ok { s with results := withEF }

/-- Method `DFTD3.calculate` (lines 255-286).  The base `Calculator.calculate`
stores a copy of the passed atoms (the `properties` argument is unused
beyond defaulting); then the cache check runs, a missing model is rebuilt
(line 269-270), and the evaluation proceeds.  The atoms argument is taken
as always supplied, as the ASE framework does on every calculate call. -/
def calculate (eng : Engine) (atoms : Atoms) (system_changes : List String)
    (s : State) : Except (PyErr × State) State :=
  match _check_api_calculator eng system_changes { s with atoms := some atoms } with
  | .error e => .error (e, { s with atoms := some atoms })
  | .ok s2 =>
    match s2._disp with
    | some m => calcWithModel eng atoms s2 m
    | none =>
      match _create_api_calculator eng atoms s2.nextId with
      | .error e => .error (e, s2)
      | .ok m => calcWithModel eng atoms { s2 with _disp := some m, nextId := s2.nextId + 1 } m

/-- The object state after a `calculate` call, whether it returned or
raised (Python mutations before a raise persist). -/
def finalState : Except (PyErr × State) State → State
  | .ok s => s
  | .error (_, s) => s

/-- The exception kind a `calculate` call raised, if any. -/
def raisedErr : Except (PyErr × State) State → Option PyErr
  | .ok _ => none
  | .error (e, _) => some e

/-! ### Concrete fixtures for the closed theorems below -/

/-- An engine on which every foreign call succeeds, with fixed dispersion
data. -/
def engOk : Engine where
  constructFails := fun _ _ _ _ => false
  updateFails := fun _ _ _ => false
  dampingCtorFails := fun _ _ => none
  dispersionFails := fun _ _ => false
  dispersion := fun _ _ =>
    { energy := 2, gradient := [[1, 0, 0]], virial := [[1, 0, 0], [0, 1, 0], [0, 0, 1]] }

/-- An engine whose in-place geometry update always raises RuntimeError,
while everything else succeeds. -/
def engUpdFail : Engine where
  constructFails := fun _ _ _ _ => false
  updateFails := fun _ _ _ => true
  dampingCtorFails := fun _ _ => none
  dispersionFails := fun _ _ => false
  dispersion := fun _ _ =>
    { energy := 2, gradient := [[1, 0, 0]], virial := [[1, 0, 0], [0, 1, 0], [0, 0, 1]] }

/-- An engine whose dispersion evaluation always raises RuntimeError. -/
def engDispFail : Engine where
  constructFails := fun _ _ _ _ => false
  updateFails := fun _ _ _ => false
  dampingCtorFails := fun _ _ => none
  dispersionFails := fun _ _ => true
  dispersion := fun _ _ =>
    { energy := 2, gradient := [[1, 0, 0]], virial := [[1, 0, 0], [0, 1, 0], [0, 0, 1]] }

/-- A molecular (non-periodic) structure. -/
def atomsMol : Atoms where
  numbers := [1, 1]
  positions := [[0, 0, 0], [1, 0, 0]]
  cell := [[0, 0, 0], [0, 0, 0], [0, 0, 0]]
  pbc := [false, false, false]

/-- A periodic structure with a unit-determinant-free cubic cell. -/
def atomsPer : Atoms where
  numbers := [6]
  positions := [[0, 0, 0]]
  cell := [[2, 0, 0], [0, 2, 0], [0, 0, 2]]
  pbc := [true, true, true]

/-- A cached native model handle. -/
def model0 : Model where
  id := 0
  numbers := [1, 1]
  positions := [[0, 0, 0], [1, 0, 0]]
  cell := [[0, 0, 0], [0, 0, 0], [0, 0, 0]]
  periodic := [false, false, false]

/-- Well-formed parameters selecting the rational-damping family. -/
def paramsBJ : Parameters where
  method := some "pbe"
  damping := some "d3bj"
  params_tweaks := []
  cache_api := true

/-- A freshly constructed calculator state. -/
def sFresh : State where
  parameters := paramsBJ

/-- A fresh state with `cache_api` disabled. -/
def sNoCache : State where
  parameters :=
    { method := some "pbe", damping := some "d3bj", params_tweaks := [], cache_api := false }

/-- A state holding a cached model handle. -/
def sCached : State where
  parameters := paramsBJ
  atoms := some atomsMol
  _disp := some model0
  nextId := 1

/-- The `set` keyword dict `{"cache_api": False}`. -/
def kwCacheOff : SetKwargs where
  cache_api := some false

/-- A concrete successful molecular calculation run. -/
def runMol : Except (PyErr × State) State :=
  calculate engOk atomsMol ["positions"] sFresh

/-- A concrete successful periodic calculation run. -/
def runPer : Except (PyErr × State) State :=
  calculate engOk atomsPer ["positions"] sFresh

/-! ### Helper lemmas about the change-list filtering -/

theorem erase_of_mem_guard (a : String) (l : List String) :
    (if a ∈ l then l.erase a else l) = l.erase a := by
  by_cases h : a ∈ l
  · simp [h]
  · simp [h, List.erase_of_not_mem h]

theorem residual_eq (l : List String) :
    residual l = (l.erase "positions").erase "cell" := by
  simp only [residual]
  rw [erase_of_mem_guard "positions" l, erase_of_mem_guard "cell"]

theorem mem_residual (c : String) (l : List String) (hc : c ∈ l)
    (h1 : c ≠ "positions") (h2 : c ≠ "cell") : c ∈ residual l := by
  rw [residual_eq]
  exact (List.mem_erase_of_ne h2).2 ((List.mem_erase_of_ne h1).2 hc)

theorem erase_all_nil (a : String) (l : List String)
    (hmem : ∀ x ∈ l, x = a) (hcount : l.count a ≤ 1) : l.erase a = [] := by
  cases l with
  | nil => rfl
  | cons x xs =>
    have hx : x = a := hmem x (List.mem_cons_self x xs)
    subst hx
    rw [List.erase_cons_head]
    have h0 : xs.count x = 0 := by
      have := List.count_cons_self x xs ▸ hcount
      omega
    cases xs with
    | nil => rfl
    | cons y ys =>
      have hy : y = x := hmem y (List.mem_cons_of_mem x (List.mem_cons_self y ys))
      subst hy
      rw [List.count_cons_self] at h0
      omega

theorem residual_nil (l : List String)
    (hmem : ∀ x ∈ l, x = "positions" ∨ x = "cell")
    (hp : l.count "positions" ≤ 1) (hc : l.count "cell" ≤ 1) :
    residual l = [] := by
  rw [residual_eq]
  cases l with
  | nil => rfl
  | cons x xs =>
    rcases hmem x (List.mem_cons_self x xs) with hx | hx
    · subst hx
      rw [List.erase_cons_head]
      have h0 : xs.count "positions" = 0 := by
        have := List.count_cons_self "positions" xs ▸ hp
        omega
      have hnot := List.count_eq_zero.1 h0
      refine erase_all_nil _ _ (fun y hy => ?_) ?_
      · rcases hmem y (List.mem_cons_of_mem _ hy) with h | h
        · exact absurd (h ▸ hy) hnot
        · exact h
      · rw [List.count_cons_of_ne (by decide) xs] at hc
        exact hc
    · subst hx
      rw [List.erase_cons_tail (by decide), List.erase_cons_head]
      have h0 : xs.count "cell" = 0 := by
        have := List.count_cons_self "cell" xs ▸ hc
        omega
      have hnot := List.count_eq_zero.1 h0
      refine erase_all_nil _ _ (fun y hy => ?_) ?_
      · rcases hmem y (List.mem_cons_of_mem _ hy) with h | h
        · exact h
        · exact absurd (h ▸ hy) hnot
      · rw [List.count_cons_of_ne (by decide) xs] at hp
        exact hp

/-! ### Helper lemmas about the calculator state machine -/

theorem update_disp_eq_self (s : State) (d : Option Model) (h : s._disp = d) :
    { s with _disp := d } = s := by
  cases s
  subst h
  rfl

theorem check_discard (eng : Engine) (ch : List String) (s : State)
    (h : residual ch ≠ []) :
    _check_api_calculator eng ch s = .ok { s with _disp := none } := by
  unfold _check_api_calculator
  rw [if_pos h]

theorem check_shape (eng : Engine) (ch : List String) (s : State) (a : Atoms)
    (ha : s.atoms = some a) :
    ∃ d, _check_api_calculator eng ch s = .ok { s with _disp := d } := by
  unfold _check_api_calculator
  by_cases h0 : residual ch ≠ []
  · rw [if_pos h0]
    exact ⟨none, rfl⟩
  · rw [if_neg h0]
    by_cases h1 : ch ≠ []
    · rw [if_pos h1]
      cases hd : s._disp with
      | none =>
        exact ⟨none, by rw [update_disp_eq_self s none hd]⟩
      | some m =>
        simp only [ha]
        by_cases hu : eng.updateFails m (positionsBohr a) (cellBohr a) = true
        · rw [if_pos hu]
          exact ⟨none, rfl⟩
        · rw [if_neg hu]
          exact ⟨some (m.update (positionsBohr a) (cellBohr a)), rfl⟩
    · rw [if_neg h1]
      exact ⟨s._disp, by rw [update_disp_eq_self s s._disp rfl]⟩

theorem cwm_err (eng : Engine) (a : Atoms) (s : State) (m : Model) (e : PyErr)
    (s' : State) (h : calcWithModel eng a s m = .error (e, s')) : s' = s := by
  simp only [calcWithModel] at h
  split at h
  · cases h
    rfl
  · split at h
    · cases h
      rfl
    · split at h <;> simp at h

theorem cwm_disp (eng : Engine) (a : Atoms) (s : State) (m : Model) :
    (finalState (calcWithModel eng a s m))._disp = s._disp := by
  simp only [calcWithModel]
  split
  · rfl
  · split
    · rfl
    · split <;> rfl

theorem cwm_fail (eng : Engine) (a : Atoms) (s : State) (m : Model)
    (dp : DampingParam) (h1 : _create_damping_param eng s.parameters = .ok dp)
    (h2 : eng.dispersionFails m dp = true) :
    calcWithModel eng a s m = .error (PyErr.calculationFailed, s) := by
  simp only [calcWithModel, h1, h2, if_true]

theorem cwm_ok_spec (eng : Engine) (a : Atoms) (s : State) (m : Model)
    (s' : State) (h : calcWithModel eng a s m = .ok s') :
    ∃ dp, _create_damping_param eng s.parameters = .ok dp ∧
      eng.dispersionFails m dp = false ∧
      s'.parameters = s.parameters ∧
      s'.atoms = s.atoms ∧
      s'._disp = s._disp ∧
      s'.results.energy = some ((eng.dispersion m dp).energy * Hartree) ∧
      s'.results.free_energy = some ((eng.dispersion m dp).energy * Hartree) ∧
      s'.results.forces =
        some (mapMat (fun g => -g * Hartree / Bohr) (eng.dispersion m dp).gradient) ∧
      s'.results.stress =
        (if a.pbc.any (fun b => b) = true then
          some (voigtFlat (mapMat (fun x => x * Hartree / getVolume a)
            (eng.dispersion m dp).virial))
        else s.results.stress) := by
  simp only [calcWithModel] at h
  split at h
  · simp at h
  · rename_i dp hdp
    split at h
    · simp at h
    · rename_i hfail
      split at h
      · rename_i hpbc
        cases h
        exact ⟨dp, hdp, by simpa using hfail, rfl, rfl, rfl, rfl, rfl, rfl, by simp [hpbc]⟩
      · rename_i hpbc
        cases h
        exact ⟨dp, hdp, by simpa using hfail, rfl, rfl, rfl, rfl, rfl, rfl, by simp [hpbc]⟩

theorem calc_ok_spec (eng : Engine) (a : Atoms) (ch : List String) (s s' : State)
    (h : calculate eng a ch s = .ok s') :
    ∃ m dp, s'._disp = some m ∧
      _create_damping_param eng s.parameters = .ok dp ∧
      s'.results.energy = some ((eng.dispersion m dp).energy * Hartree) ∧
      s'.results.free_energy = some ((eng.dispersion m dp).energy * Hartree) ∧
      s'.results.forces =
        some (mapMat (fun g => -g * Hartree / Bohr) (eng.dispersion m dp).gradient) ∧
      s'.results.stress =
        (if a.pbc.any (fun b => b) = true then
          some (voigtFlat (mapMat (fun x => x * Hartree / getVolume a)
            (eng.dispersion m dp).virial))
        else s.results.stress) := by
  unfold calculate at h
  obtain ⟨d, hc⟩ := check_shape eng ch { s with atoms := some a } a rfl
  rw [hc] at h
  cases d with
  | some m =>
    obtain ⟨dp, hdp, hfail, hpar, hat, hdisp, he, hf, hfo, hst⟩ :=
      cwm_ok_spec eng a _ m s' h
    exact ⟨m, dp, hdisp, hdp, he, hf, hfo, hst⟩
  | none =>
    simp only at h
    split at h
    · simp at h
    · rename_i m hm
      obtain ⟨dp, hdp, hfail, hpar, hat, hdisp, he, hf, hfo, hst⟩ :=
        cwm_ok_spec eng a _ m s' h
      exact ⟨m, dp, hdisp, hdp, he, hf, hfo, hst⟩

theorem calc_err_results (eng : Engine) (a : Atoms) (ch : List String)
    (s : State) (e : PyErr) (s' : State)
    (h : calculate eng a ch s = .error (e, s')) : s'.results = s.results := by
  unfold calculate at h
  obtain ⟨d, hc⟩ := check_shape eng ch { s with atoms := some a } a rfl
  rw [hc] at h
  cases d with
  | some m =>
    have := cwm_err eng a _ m e s' h
    subst this
    rfl
  | none =>
    simp only at h
    split at h
    · cases h
      rfl
    · rename_i m hm
      have := cwm_err eng a _ m e s' h
      subst this
      rfl

theorem reset_keeps_disp (s : State) (h : s.parameters.cache_api = true) :
    (reset s)._disp = s._disp := by
  simp [reset, baseReset, h]

theorem baseSet_cache_true (kw : SetKwargs) (p : Parameters)
    (h : p.cache_api = true) (hkw : kw.cache_api ≠ some false) :
    (baseSet kw p).1.cache_api = true := by
  cases hb : kw.cache_api with
  | none => simp [baseSet, applyField, hb, h]
  | some b =>
    cases b with
    | false => exact absurd hb hkw
    | true => simp [baseSet, applyField, hb, h]

/-! ### Claim theorems -/

/-- Claim C1 (code bug): for a damping name outside the seven known family
names, `_create_damping_param` raises KeyError from the `_damping_param`
dict subscription — not InputError as claimed — because its `except`
clause catches only RuntimeError, which KeyError is not.  Evaluated at the
failing input `damping="d3"`. -/
theorem c1_unknown_damping_raises_keyerror :
    _create_damping_param engOk
      { method := some "tpss", damping := some "d3", params_tweaks := [],
        cache_api := true } = .error PyErr.keyError ∧
    PyErr.keyError ≠ PyErr.inputError :=
  ⟨rfl, by decide⟩

/-- Claim C2 counterexample: `cache_api` is disabled, a calculation
completes, and yet at the end of the `calculate` call the cached handle
`_disp` is not discarded — it holds the model that was just built. -/
theorem c2_counterexample :
    sNoCache.parameters.cache_api = false ∧
    (finalState (calculate engOk atomsMol ["positions"] sNoCache))._disp.isSome
      = true :=
  ⟨rfl, rfl⟩

/-- Claim C2 (amended): with `cache_api` disabled the discard of the cached
model handle happens in `reset` — which the framework runs before the next
change-triggered calculation — and not at the end of `calculate`: every
`reset` call sets `_disp` to `None`, while a completed `calculate` always
leaves the just-used model in `_disp`. -/
theorem c2_amended (s : State) (h : s.parameters.cache_api = false) :
    (reset s)._disp = none ∧
    ∀ eng a ch s', calculate eng a ch s = .ok s' → s'._disp.isSome = true := by
  constructor
  · simp [reset, baseReset, h]
  · intro eng a ch s' hcalc
    obtain ⟨m, dp, hdisp, _⟩ := calc_ok_spec eng a ch s s' hcalc
    simp [hdisp]

/-- Witness for C2 (amended) at a concrete cache-disabled state. -/
theorem c2_amended_witness :
    (reset sNoCache)._disp = none ∧
    ∀ eng a ch s', calculate eng a ch sNoCache = .ok s' →
      s'._disp.isSome = true :=
  c2_amended sNoCache rfl

/-- Claim C6: when `params_tweaks` is a non-empty mapping the damping
constructor keywords are exactly those tweaks and `method` is ignored;
only with empty tweaks is the `{"method": ...}` default dict used; and a
successfully constructed damping parameter received exactly
`dampingKwargs p`. -/
theorem c6_tweaks_precedence (p : Parameters) :
    (p.params_tweaks ≠ [] →
      dampingKwargs p = p.params_tweaks ∧
      ∀ m', dampingKwargs { p with method := m' } = dampingKwargs p) ∧
    (p.params_tweaks = [] →
      dampingKwargs p = [("method", Value.ofOptStr p.method)]) ∧
    ∀ eng dp, _create_damping_param eng p = .ok dp →
      dp.kwargs = dampingKwargs p := by
  refine ⟨fun h => ⟨?_, fun m' => ?_⟩, fun h => ?_, fun eng dp hdp => ?_⟩
  · simp [dampingKwargs, h]
  · simp [dampingKwargs, h]
  · simp [dampingKwargs, h]
  · unfold _create_damping_param at hdp
    split at hdp
    · simp at hdp
    · split at hdp
      · simp at hdp
      · simp at hdp
      · cases hdp
        rfl

/-- Witness for C6: non-empty tweaks win; empty tweaks fall back to the
method dict. -/
theorem c6_witness :
    dampingKwargs
      { method := some "pbe", damping := some "d3bj",
        params_tweaks := [("s8", Value.vnum 1)], cache_api := true } =
      [("s8", Value.vnum 1)] ∧
    dampingKwargs paramsBJ = [("method", Value.vstr "pbe")] :=
  ⟨((c6_tweaks_precedence _).1 (by simp)).1,
   (c6_tweaks_precedence paramsBJ).2.1 rfl⟩

/-- Claim C10 counterexample: from a state with `cache_api` enabled and a
cached handle, `set` with `cache_api=False` registers a change and
triggers `reset`, which — reading the already-updated parameter —
discards the handle: this parameter change alone discards the native
model, contradicting the claim. -/
theorem c10_counterexample :
    sCached.parameters.cache_api = true ∧ sCached._disp = some model0 ∧
    (set kwCacheOff sCached)._disp = none :=
  ⟨rfl, rfl, rfl⟩

/-- Claim C10 (amended): with `cache_api` enabled, `reset` leaves `_disp`
unchanged and clears the stored results, and any `set` that does not
disable `cache_api` also leaves `_disp` unchanged; only a `set` that turns
`cache_api` off discards the handle. -/
theorem c10_amended (s : State) (h : s.parameters.cache_api = true) :
    (reset s)._disp = s._disp ∧ (reset s).results = ({} : Results) ∧
    ∀ kw : SetKwargs, kw.cache_api ≠ some false →
      (set kw s)._disp = s._disp := by
  refine ⟨reset_keeps_disp s h, ?_, fun kw hkw => ?_⟩
  · simp [reset, baseReset, h]
  · have hc : (baseSet kw s.parameters).1.cache_api = true :=
      baseSet_cache_true kw s.parameters h hkw
    simp only [set]
    by_cases hch : (baseSet kw s.parameters).2 = true
    · rw [if_pos hch, reset_keeps_disp _ hc]
    · rw [if_neg hch]

/-- Witness for C10 (amended) at a concrete cached state. -/
theorem c10_amended_witness :
    (reset sCached)._disp = sCached._disp ∧
    (reset sCached).results = ({} : Results) ∧
    ∀ kw : SetKwargs, kw.cache_api ≠ some false →
      (set kw sCached)._disp = sCached._disp :=
  c10_amended sCached rfl

theorem create_ok (eng : Engine) (a : Atoms) (i : Nat)
    (hcons : eng.constructFails a.numbers (positionsBohr a) (cellBohr a) a.pbc
      = false) :
    _create_api_calculator eng a i =
      .ok { id := i, numbers := a.numbers, positions := positionsBohr a,
            cell := cellBohr a, periodic := a.pbc } := by
  unfold _create_api_calculator
  rw [if_neg (by simp [hcons])]

/-- Claim C3 counterexample: the change list `["positions", "positions"]`
contains only `positions`, a cached handle exists, and the engine update
would succeed — yet the handle is discarded, because `list.remove` drops
only the first occurrence and the leftover keeps the residue non-empty. -/
theorem c3_counterexample :
    sCached._disp = some model0 ∧
    (∀ c ∈ ["positions", "positions"], c = "positions" ∨ c = "cell") ∧
    engOk.updateFails model0 (positionsBohr atomsMol) (cellBohr atomsMol)
      = false ∧
    _check_api_calculator engOk ["positions", "positions"] sCached =
      .ok { sCached with _disp := none } :=
  ⟨rfl, by decide, rfl, rfl⟩

/-- Claim C3 (amended): for change lists containing `positions` and `cell`
at most once each — as the framework's change detection produces — any
entry outside {positions, cell} discards the cached handle; and a
non-empty list of only positions/cell entries, with a cached handle,
attached atoms, and a succeeding engine update, keeps the same handle
(same identity) refreshed in place with the current positions and cell. -/
theorem c3_amended (eng : Engine) (ch : List String) (s : State)
    (hp : ch.count "positions" ≤ 1) (hc : ch.count "cell" ≤ 1) :
    ((∃ c ∈ ch, c ≠ "positions" ∧ c ≠ "cell") →
      _check_api_calculator eng ch s = .ok { s with _disp := none }) ∧
    (∀ m a, ch ≠ [] → (∀ c ∈ ch, c = "positions" ∨ c = "cell") →
      s._disp = some m → s.atoms = some a →
      eng.updateFails m (positionsBohr a) (cellBohr a) = false →
      _check_api_calculator eng ch s =
        .ok { s with _disp := some (m.update (positionsBohr a) (cellBohr a)) }
      ∧ (m.update (positionsBohr a) (cellBohr a)).id = m.id) := by
  constructor
  · rintro ⟨c, hcmem, h1, h2⟩
    exact check_discard eng ch s
      (List.ne_nil_of_mem (mem_residual c ch hcmem h1 h2))
  · intro m a hne honly hdisp hatoms hupd
    have hres : residual ch = [] := residual_nil ch honly hp hc
    refine ⟨?_, rfl⟩
    unfold _check_api_calculator
    rw [if_neg (by simp [hres]), if_pos hne]
    simp only [hdisp, hatoms]
    rw [if_neg (by simp [hupd])]

/-- Witness for C3 (amended): a foreign entry discards; a pure positions
change refreshes in place. -/
theorem c3_amended_witness :
    _check_api_calculator engOk ["numbers"] sCached =
      .ok { sCached with _disp := none } ∧
    (_check_api_calculator engOk ["positions"] sCached =
      .ok { sCached with
        _disp := some (model0.update (positionsBohr atomsMol)
          (cellBohr atomsMol)) } ∧
     (model0.update (positionsBohr atomsMol) (cellBohr atomsMol)).id
       = model0.id) :=
  ⟨(c3_amended engOk ["numbers"] sCached (by decide) (by decide)).1
      ⟨"numbers", by decide, by decide, by decide⟩,
   (c3_amended engOk ["positions"] sCached (by decide) (by decide)).2
      model0 atomsMol (by decide) (by decide) rfl rfl rfl⟩

/-- Claim C4: when the in-place update raises RuntimeError,
`_check_api_calculator` catches it and discards the handle instead of
propagating, and the same `calculate` call then rebuilds the model from
scratch — a fresh identity constructed from the current atoms. -/
theorem c4_update_failure_degrades (eng : Engine) (ch : List String)
    (s : State) (m : Model) (a : Atoms)
    (hp : ch.count "positions" ≤ 1) (hc : ch.count "cell" ≤ 1)
    (hne : ch ≠ []) (honly : ∀ c ∈ ch, c = "positions" ∨ c = "cell")
    (hdisp : s._disp = some m)
    (hupd : eng.updateFails m (positionsBohr a) (cellBohr a) = true)
    (hcons : eng.constructFails a.numbers (positionsBohr a) (cellBohr a) a.pbc
      = false) :
    _check_api_calculator eng ch { s with atoms := some a } =
      .ok { s with atoms := some a, _disp := none } ∧
    (finalState (calculate eng a ch s))._disp =
      some { id := s.nextId, numbers := a.numbers,
             positions := positionsBohr a, cell := cellBohr a,
             periodic := a.pbc } := by
  have hres : residual ch = [] := residual_nil ch honly hp hc
  have hcheck : _check_api_calculator eng ch { s with atoms := some a } =
      .ok { s with atoms := some a, _disp := none } := by
    unfold _check_api_calculator
    rw [if_neg (by simp [hres]), if_pos hne]
    simp only [hdisp]
    rw [if_pos hupd]
  refine ⟨hcheck, ?_⟩
  unfold calculate
  simp only [hcheck, create_ok eng a s.nextId hcons]
  simp [cwm_disp]

/-- Witness for C4 at a concrete cached state with an update-failing
engine. -/
theorem c4_witness :
    _check_api_calculator engUpdFail ["cell"]
        { sCached with atoms := some atomsMol } =
      .ok { sCached with atoms := some atomsMol, _disp := none } ∧
    (finalState (calculate engUpdFail atomsMol ["cell"] sCached))._disp =
      some { id := sCached.nextId, numbers := atomsMol.numbers,
             positions := positionsBohr atomsMol, cell := cellBohr atomsMol,
             periodic := atomsMol.pbc } :=
  c4_update_failure_degrades engUpdFail ["cell"] sCached model0 atomsMol
    (by decide) (by decide) (by decide) (by decide) rfl rfl rfl

/-- Claim C5: on a successful periodic calculation the stored stress is the
engine's 3x3 virial scaled by Hartree, divided by the cell volume,
flattened row-major and reordered by the flat indices [0,4,8,5,2,1]. -/
theorem c5_stress_voigt (eng : Engine) (a : Atoms) (ch : List String)
    (s s' : State) (hcalc : calculate eng a ch s = .ok s')
    (hpbc : a.pbc.any (fun b => b) = true) :
    ∃ m dp, s'._disp = some m ∧
      _create_damping_param eng s.parameters = .ok dp ∧
      s'.results.stress =
        some (voigtFlat (mapMat (fun x => x * Hartree / getVolume a)
          (eng.dispersion m dp).virial)) := by
  obtain ⟨m, dp, hdisp, hdp, _, _, _, hst⟩ := calc_ok_spec eng a ch s s' hcalc
  exact ⟨m, dp, hdisp, hdp, by rw [hst, if_pos hpbc]⟩

/-- Claim C7: after a successful calculation starting from a results dict
without a stale stress entry, stress is present iff the structure has a
periodic direction, while energy, free energy and forces are always
present. -/
theorem c7_stress_iff_periodic (eng : Engine) (a : Atoms) (ch : List String)
    (s s' : State) (hcalc : calculate eng a ch s = .ok s')
    (hpre : s.results.stress = none) :
    (s'.results.stress ≠ none ↔ a.pbc.any (fun b => b) = true) ∧
    s'.results.energy ≠ none ∧ s'.results.free_energy ≠ none ∧
    s'.results.forces ≠ none := by
  obtain ⟨m, dp, hdisp, hdp, he, hf, hfo, hst⟩ := calc_ok_spec eng a ch s s' hcalc
  refine ⟨?_, by simp [he], by simp [hf], by simp [hfo]⟩
  rw [hst]
  cases hb : a.pbc.any (fun b => b) with
  | true => simp
  | false => simp [hpre]

/-- Claim C8: on success the stored forces are the engine gradient with
inverted sign, scaled by Hartree and divided by Bohr. -/
theorem c8_forces_sign (eng : Engine) (a : Atoms) (ch : List String)
    (s s' : State) (hcalc : calculate eng a ch s = .ok s') :
    ∃ m dp, s'._disp = some m ∧
      _create_damping_param eng s.parameters = .ok dp ∧
      s'.results.forces =
        some (mapMat (fun g => -g * Hartree / Bohr)
          (eng.dispersion m dp).gradient) := by
  obtain ⟨m, dp, hdisp, hdp, _, _, hfo, _⟩ := calc_ok_spec eng a ch s s' hcalc
  exact ⟨m, dp, hdisp, hdp, hfo⟩

/-- Claim C9: any exception escaping `calculate` leaves the results dict
exactly as it was — all writes happen after the dispersion evaluation —
and when the dispersion evaluation is what fails (with earlier stages
succeeding), the raised exception is CalculationFailed. -/
theorem c9_dispersion_failure_atomic (eng : Engine) (a : Atoms)
    (ch : List String) (s : State) :
    (∀ e s', calculate eng a ch s = .error (e, s') →
      s'.results = s.results) ∧
    ∀ dp, _create_damping_param eng s.parameters = .ok dp →
      (∀ m, eng.dispersionFails m dp = true) →
      eng.constructFails a.numbers (positionsBohr a) (cellBohr a) a.pbc
        = false →
      raisedErr (calculate eng a ch s) = some PyErr.calculationFailed := by
  refine ⟨fun e s' h => calc_err_results eng a ch s e s' h,
    fun dp hdp hfail hcons => ?_⟩
  unfold calculate
  obtain ⟨d, hc⟩ := check_shape eng ch { s with atoms := some a } a rfl
  simp only [hc]
  cases d with
  | some m =>
    simp [calcWithModel, hdp, hfail, raisedErr]
  | none =>
    simp only [create_ok eng a _ hcons]
    simp [calcWithModel, hdp, hfail, raisedErr]

/-- Witness for C5 at a concrete periodic run. -/
theorem c5_witness :
    ∃ m dp, (finalState runPer)._disp = some m ∧
      _create_damping_param engOk sFresh.parameters = .ok dp ∧
      (finalState runPer).results.stress =
        some (voigtFlat (mapMat (fun x => x * Hartree / getVolume atomsPer)
          (engOk.dispersion m dp).virial)) :=
  c5_stress_voigt engOk atomsPer ["positions"] sFresh (finalState runPer)
    rfl rfl

/-- Witness for C7 at a concrete molecular run with stress-free initial
results. -/
theorem c7_witness :
    ((finalState runMol).results.stress ≠ none ↔
      atomsMol.pbc.any (fun b => b) = true) ∧
    (finalState runMol).results.energy ≠ none ∧
    (finalState runMol).results.free_energy ≠ none ∧
    (finalState runMol).results.forces ≠ none :=
  c7_stress_iff_periodic engOk atomsMol ["positions"] sFresh
    (finalState runMol) rfl rfl

/-- Witness for C8 at a concrete molecular run. -/
theorem c8_witness :
    ∃ m dp, (finalState runMol)._disp = some m ∧
      _create_damping_param engOk sFresh.parameters = .ok dp ∧
      (finalState runMol).results.forces =
        some (mapMat (fun g => -g * Hartree / Bohr)
          (engOk.dispersion m dp).gradient) :=
  c8_forces_sign engOk atomsMol ["positions"] sFresh (finalState runMol) rfl

/-- Witness for C9: with a dispersion-failing engine, a concrete
calculation raises CalculationFailed and leaves the results dict
untouched. -/
theorem c9_witness :
    raisedErr (calculate engDispFail atomsMol ["positions"] sFresh) =
      some PyErr.calculationFailed ∧
    (finalState (calculate engDispFail atomsMol ["positions"] sFresh)).results
      = sFresh.results := by
  constructor
  · exact (c9_dispersion_failure_atomic engDispFail atomsMol ["positions"]
      sFresh).2 ⟨DampingClass.rational, [("method", Value.vstr "pbe")]⟩ rfl
      (fun m => rfl) rfl
  · exact (c9_dispersion_failure_atomic engDispFail atomsMol ["positions"]
      sFresh).1 PyErr.calculationFailed
      (finalState (calculate engDispFail atomsMol ["positions"] sFresh)) rfl

end SDFTD3Ase
